import Mathlib

/-!
Verification of the hash-keyed response cache in `src/app_fire2.py`
(Google_Marathon).  The program accepts an image and a text prompt,
derives a SHA-256 content identifier from the raw image bytes
(`encode_image_binary`), looks the identifier up in a remote store
(`check_existing_response`), on a miss invokes a generative model
(`get_gemini_response`) and writes the result through
(`store_response_in_firebase`), and displays the outcome.

The external collaborators (Firebase store, Gemini model) are modelled as
parameters of the orchestrator: the store as a partial map from identifier
to record, read/write transport failures as booleans, and the model as a
deterministic oracle from the three-part payload to an optional text.
Python truthiness drives the branch decisions exactly as in the source:
an empty string, `None`, an empty list, and an empty dict are falsy.
-/

/-- 2^32, the modulus for all 32-bit words in SHA-256. -/
def M32 : Nat := 4294967296

/-- Right rotation of a 32-bit word by `n` bits. -/
def rotr32 (n x : Nat) : Nat := (x / 2 ^ n + x % 2 ^ n * 2 ^ (32 - n)) % M32

/-- Right shift of a 32-bit word by `n` bits. -/
def shr32 (n x : Nat) : Nat := x / 2 ^ n

/-- Bitwise complement within 32 bits. -/
def not32 (x : Nat) : Nat := x ^^^ (M32 - 1)

/-- SHA-256 round constants (fractional parts of cube roots of the first
64 primes). -/
def K256 : List Nat :=
  [1116352408, 1899447441, 3049323471, 3921009573, 961987163,
   1508970993, 2453635748, 2870763221, 3624381080, 310598401,
   607225278, 1426881987, 1925078388, 2162078206, 2614888103,
   3248222580, 3835390401, 4022224774, 264347078, 604807628,
   770255983, 1249150122, 1555081692, 1996064986, 2554220882,
   2821834349, 2952996808, 3210313671, 3336571891, 3584528711,
   113926993, 338241895, 666307205, 773529912, 1294757372,
   1396182291, 1695183700, 1986661051, 2177026350, 2456956037,
   2730485921, 2820302411, 3259730800, 3345764771, 3516065817,
   3600352804, 4094571909, 275423344, 430227734, 506948616,
   659060556, 883997877, 958139571, 1322822218, 1537002063,
   1747873779, 1955562222, 2024104815, 2227730452, 2361852424,
   2428436474, 2756734187, 3204031479, 3329325298]

/-- SHA-256 initial hash state (fractional parts of square roots of the
first 8 primes). -/
def H256 : List Nat :=
  [1779033703, 3144134277, 1013904242, 2773480762,
   1359893119, 2600822924, 528734635, 1541459225]

/-- SHA-256 message padding: append `0x80`, zeros to 56 mod 64, and the
big-endian 64-bit bit length. -/
def sha256pad (msg : List Nat) : List Nat :=
  msg ++ [128] ++ List.replicate ((119 - msg.length % 64) % 64) 0 ++
    (List.range 8).map (fun i => msg.length * 8 / 256 ^ (7 - i) % 256)

/-- Split a byte list into 64-byte blocks. -/
def toBlocks (l : List Nat) : List (List Nat) :=
  if l = [] then []
  else l.take 64 :: toBlocks (l.drop 64)
termination_by l.length
decreasing_by
  simp only [List.length_drop]
  exact Nat.sub_lt (List.length_pos.mpr (by assumption)) (by decide)

/-- Interpret a 64-byte block as 16 big-endian 32-bit words. -/
def toWords (block : List Nat) : List Nat :=
  (List.range 16).map (fun i =>
    block.getD (4 * i) 0 * 16777216 + block.getD (4 * i + 1) 0 * 65536 +
      block.getD (4 * i + 2) 0 * 256 + block.getD (4 * i + 3) 0)

/-- One step of the SHA-256 message-schedule extension. -/
def stepW (w : List Nat) : List Nat :=
  let n := w.length
  let s0 := rotr32 7 (w.getD (n - 15) 0) ^^^ rotr32 18 (w.getD (n - 15) 0) ^^^
    shr32 3 (w.getD (n - 15) 0)
  let s1 := rotr32 17 (w.getD (n - 2) 0) ^^^ rotr32 19 (w.getD (n - 2) 0) ^^^
    shr32 10 (w.getD (n - 2) 0)
  w ++ [(w.getD (n - 16) 0 + s0 + w.getD (n - 7) 0 + s1) % M32]

/-- Extend 16 schedule words to 64. -/
def schedule (w16 : List Nat) : List Nat :=
  (List.range 48).foldl (fun w _ => stepW w) w16

/-- One SHA-256 compression round on the 8-word working state. -/
def roundFn (w : List Nat) (st : List Nat) (i : Nat) : List Nat :=
  match st with
  | [a, b, c, d, e, f, g, h] =>
    let t1 := (h + (rotr32 6 e ^^^ rotr32 11 e ^^^ rotr32 25 e) +
      ((e &&& f) ^^^ (not32 e &&& g)) + K256.getD i 0 + w.getD i 0) % M32
    let t2 := ((rotr32 2 a ^^^ rotr32 13 a ^^^ rotr32 22 a) +
      ((a &&& b) ^^^ (a &&& c) ^^^ (b &&& c))) % M32
    [(t1 + t2) % M32, a, b, c, (d + t1) % M32, e, f, g]
  | _ => st

/-- Compress one 64-byte block into the hash state. -/
def sha256compress (hs : List Nat) (block : List Nat) : List Nat :=
  let w := schedule (toWords block)
  let st := (List.range 64).foldl (roundFn w) hs
  (hs.zip st).map (fun p => (p.fst + p.snd) % M32)

/-- SHA-256 of a byte list, as the 8-word final state. -/
def sha256words (msg : List Nat) : List Nat :=
  (toBlocks (sha256pad msg)).foldl sha256compress H256

/-- One lowercase hexadecimal digit. -/
def hexDigit (n : Nat) : Char :=
  if n < 10 then Char.ofNat (48 + n) else Char.ofNat (87 + n)

/-- Eight lowercase hex characters of one 32-bit word, big-endian. -/
def wordHex (wd : Nat) : List Char :=
  [hexDigit (wd / 268435456 % 16), hexDigit (wd / 16777216 % 16),
   hexDigit (wd / 1048576 % 16), hexDigit (wd / 65536 % 16),
   hexDigit (wd / 4096 % 16), hexDigit (wd / 256 % 16),
   hexDigit (wd / 16 % 16), hexDigit (wd % 16)]

/-- `hashlib.sha256(bytes).hexdigest()`: the 64-character lowercase hex
digest of a byte list. -/
def sha256hex (msg : List Nat) : String :=
  String.mk ((sha256words msg).foldr (fun wd acc => wordHex wd ++ acc) [])

/-- An uploaded file: filename, MIME-type label, and raw bytes
(`uploaded_file.getvalue()` returns `data`). -/
structure UploadedFile where
  name : String
  type : String
  data : List Nat

/-- One element of the `image_parts` payload handed to the model:
`{"mime_type": ..., "data": ...}`. -/
structure ImagePart where
  mime_type : String
  data : List Nat
deriving DecidableEq

/-- A record stored at `/responses/<identifier>`: a Python dict from field
name to string value, as an association list with distinct keys. -/
def Record : Type := List (String × String)

/-- The remote key-value store: identifier to optional record. -/
def Store : Type := String → Option Record

/-- Python truthiness of a dict-or-None lookup result: `None` and the
empty dict are falsy. -/
def truthyRec : Option Record → Bool
  | none => false
  | some [] => false
  | some (_ :: _) => true

/-- First-match lookup in a record, `d[k]` as an option. -/
def dictLookup (d : Record) (k : String) : Option String :=
  match d with
  | [] => none
  | (k', v) :: rest => if k' = k then some v else dictLookup rest k

/-- Python `d.get(k, default)`. -/
def dictGet (d : Record) (k : String) (default : String) : String :=
  (dictLookup d k).getD default

/-- `encode_image_binary`: SHA-256 hex digest of the uploaded file's raw
bytes (`hashlib.sha256(uploaded_file.getvalue()).hexdigest()`); the
`except` branch returns `None`, unreachable for a present file. -/
def encode_image_binary (uploaded_file : UploadedFile) : Option String :=
  some (sha256hex uploaded_file.data)

/-- `input_image_setup`: wrap the file's bytes and MIME label into a
one-element `image_parts` list; with no file the raised
`FileNotFoundError` is caught and `None` returned. -/
def input_image_setup (uploaded_file : Option UploadedFile) :
    Option (List ImagePart) :=
  match uploaded_file with
  | some f => some [⟨f.type, f.data⟩]
  | none => none

/-- `check_existing_response`: point read of `/responses/<image_id>`; a
transport error is caught and `None` returned, indistinguishable from an
absent record. -/
def check_existing_response (store : Store) (readFails : Bool)
    (image_id : String) : Option Record :=
  if readFails then none else store image_id

/-- `store_response_in_firebase`: set `/responses/<identifier>` to
`{"response": response, "encoding": encoding}`; a transport error is
caught and the store is left unchanged. -/
def store_response_in_firebase (store : Store) (writeFails : Bool)
    (identifier response encoding : String) : Store :=
  if writeFails then store
  else fun k =>
    if k = identifier then some [("response", response), ("encoding", encoding)]
    else store k

/-- `get_gemini_response`: forward `(input_text, image_data[0], prompt)`
to the model oracle; an empty `image_data` raises, caught to `None`, and
a model-call error is `None` as well. -/
def get_gemini_response (gen : String → ImagePart → String → Option String)
    (input_text : String) (image_data : List ImagePart) (prompt : String) :
    Option String :=
  match image_data with
  | p :: _ => gen input_text p prompt
  | [] => none

/-- The fixed instruction template `input_prompt` of the source. -/
def input_prompt : String :=
  "\nTake the persona of a Dashboard analyzer.\nThere will be multiple charts or graphs in the input data.\nList down all the types of charts.\nList down all the variables and their values in the input data.\nGenerate a summary of the input data.\nThe output should be in the form of the JSON given below:\n\nOutput: \x7b\n  \"Charts\": \x7b \x7d,\n  \"Variables\": \x7b\n    \"Variable1\":\x7b\n    \"Sub Variable1\": \"Value1\",\n    \"Sub Variable2\": \"Value2\"\x7d\n    \"Variable2\":\x7b\n    \"Sub Variable1\": \"Value1\",\n    \"Sub Variable2\": \"Value2\"\x7d\n    ...\n  \x7d,\n  \"Summary\": \"Summary of the input data in pointers\"\n\x7d\n\nIf you are unable to extract the data, strictly give the response as Null. Do not print anything else\nIn charts the key is the header of the chart and value is description of the chart\nfor variables try to find out all the variables and their values\n\n\n"

/-- The user-visible outcome of one submission. -/
inductive Display where
  /-- No top-level output (unreachable guard branches). -/
  | silent
  /-- `st.warning("Please enter an input prompt.")` -/
  | warnPrompt
  /-- `st.warning("Please upload an image.")` -/
  | warnImage
  /-- `st.write(response)` under "The Response is". -/
  | written (text : String)
  /-- `st.error("No response generated. Check inputs and try again.")` -/
  | errorNoResponse
deriving DecidableEq

/-- Observables of one pass through the submit handler: the display, the
number of model calls, store reads and store writes attempted, the store
afterwards, and whether the cache-hit branch
(`st.info("Response already exists...")`) was taken. -/
structure Result where
  displayed : Display
  genCalls : Nat
  storeReads : Nat
  storeWrites : Nat
  store : Store
  hitPath : Bool

/-- The `if submit:` block of the source, lines 147-174: validate the
prompt and file, derive the identifier, look it up, on a truthy hit
extract `response` with default `"No response found"`, on a miss generate
and write through when the response is truthy, and display the response
or the no-response error. -/
def submit_handler (gen : String → ImagePart → String → Option String)
    (store : Store) (readFails : Bool) (writeFails : Bool)
    (input_text : String) (uploaded_file : Option UploadedFile) : Result :=
  if input_text = "" then
    ⟨Display.warnPrompt, 0, 0, 0, store, false⟩
  else
    match uploaded_file with
    | none => ⟨Display.warnImage, 0, 0, 0, store, false⟩
    | some f =>
      match input_image_setup (some f) with
      | none => ⟨Display.silent, 0, 0, 0, store, false⟩
      | some image_data =>
        if image_data = [] then ⟨Display.silent, 0, 0, 0, store, false⟩
        else
          match encode_image_binary f with
          | none => ⟨Display.silent, 0, 0, 0, store, false⟩
          | some image_id =>
            if image_id = "" then ⟨Display.silent, 0, 0, 0, store, false⟩
            else
              let existing_response :=
                check_existing_response store readFails image_id
              if truthyRec existing_response then
                let response :=
                  dictGet (existing_response.getD []) "response"
                    "No response found"
                if response = "" then
                  ⟨Display.errorNoResponse, 0, 1, 0, store, true⟩
                else ⟨Display.written response, 0, 1, 0, store, true⟩
              else
                match get_gemini_response gen input_prompt image_data
                  input_text with
                | none => ⟨Display.errorNoResponse, 1, 1, 0, store, false⟩
                | some r =>
                  if r = "" then
                    ⟨Display.errorNoResponse, 1, 1, 0, store, false⟩
                  else
                    ⟨Display.written r, 1, 1, 1,
                      store_response_in_firebase store writeFails image_id r
                        image_id, false⟩

/-- One compression round preserves the length of the working state. -/
theorem roundFn_length (w st : List Nat) (i : Nat) :
    (roundFn w st i).length = st.length := by
  unfold roundFn
  split <;> simp

/-- Folding compression rounds preserves the state length. -/
theorem foldl_roundFn_length (w l : List Nat) (st : List Nat) :
    (l.foldl (roundFn w) st).length = st.length := by
  induction l generalizing st with
  | nil => rfl
  | cons a t ih => simp [List.foldl, ih, roundFn_length]

/-- Block compression preserves the hash-state length. -/
theorem sha256compress_length (hs block : List Nat) :
    (sha256compress hs block).length = hs.length := by
  unfold sha256compress
  simp [List.length_zip, foldl_roundFn_length]

/-- Folding block compressions preserves the hash-state length. -/
theorem foldl_sha256compress_length (bs : List (List Nat)) (hs : List Nat) :
    (bs.foldl sha256compress hs).length = hs.length := by
  induction bs generalizing hs with
  | nil => rfl
  | cons b t ih => simp [List.foldl, ih, sha256compress_length]

/-- The final SHA-256 state always has 8 words. -/
theorem sha256words_length (msg : List Nat) : (sha256words msg).length = 8 := by
  unfold sha256words
  rw [foldl_sha256compress_length]
  rfl

/-- A nonempty character list never makes the empty string. -/
theorem mk_cons_ne_empty (c : Char) (cs : List Char) :
    ¬ String.mk (c :: cs) = "" := by
  intro h
  have h2 : c :: cs = ([] : List Char) := congrArg String.data h
  exact List.cons_ne_nil c cs h2

/-- The hex digest is never the empty string, so the identifier is always
truthy in the handler's `if image_id:` test. -/
theorem sha256hex_ne (msg : List Nat) : ¬ sha256hex msg = "" := by
  have h8 := sha256words_length msg
  obtain ⟨w, rest, hw⟩ :=
    List.exists_cons_of_ne_nil
      (l := sha256words msg) (by intro h; rw [h] at h8; simp at h8)
  rw [sha256hex, hw]
  simp only [List.foldr, wordHex, List.cons_append]
  exact mk_cons_ne_empty _ _

/-- A model oracle that always generates the text "GEN". -/
def genConst : String → ImagePart → String → Option String :=
  fun _ _ _ => some "GEN"

/-- A model oracle whose call always fails. -/
def genFail : String → ImagePart → String → Option String :=
  fun _ _ _ => none

/-- The empty store. -/
def emptyStore : Store := fun _ => none

/-- A concrete PNG upload. -/
def fileA : UploadedFile := ⟨"a.png", "image/png", [1, 2, 3]⟩

/-- The same bytes as `fileA` under a different filename and MIME label. -/
def fileB : UploadedFile := ⟨"b.jpg", "image/jpeg", [1, 2, 3]⟩

/-- A store mapping the identifier of `fileA` to a record whose response
field is the empty string. -/
def storeC1 : Store := fun k =>
  if k = sha256hex fileA.data then some [("response", "")] else none

/-- A store mapping the identifier of `fileA` to a well-formed cached
record. -/
def storeHit : Store := fun k =>
  if k = sha256hex fileA.data then some [("response", "cached")] else none

/-- A store mapping the identifier of `fileA` to an empty (falsy) record. -/
def storeEmptyRec : Store := fun k =>
  if k = sha256hex fileA.data then some [] else none

/-- A store mapping the identifier of `fileA` to a truthy record without a
response field. -/
def storeNoField : Store := fun k =>
  if k = sha256hex fileA.data then some [("encoding", "x")] else none

/-- Claim C3: the derived identifier is a deterministic function of the
raw image bytes alone; uploads with byte-identical content hash
identically whatever their filenames or MIME labels. -/
theorem C3_hash_content_determinism (f g : UploadedFile)
    (h : f.data = g.data) :
    encode_image_binary f = encode_image_binary g := by
  unfold encode_image_binary
  rw [h]

/-- Witness for C3 at two concrete uploads differing in filename and MIME
label but not in bytes. -/
theorem C3_hash_content_determinism_witness :
    fileA.data = fileB.data ∧
    encode_image_binary fileA = encode_image_binary fileB :=
  ⟨rfl, C3_hash_content_determinism fileA fileB rfl⟩

/-- Claim C4: a submission with an empty prompt or no uploaded image
produces a validation warning and makes zero store calls and zero model
calls. -/
theorem C4_validation_gating
    (gen : String → ImagePart → String → Option String) (store : Store)
    (rf wf : Bool) (t : String) (uf : Option UploadedFile)
    (h : t = "" ∨ uf = none) :
    ((submit_handler gen store rf wf t uf).displayed = Display.warnPrompt ∨
      (submit_handler gen store rf wf t uf).displayed = Display.warnImage) ∧
    (submit_handler gen store rf wf t uf).storeReads = 0 ∧
    (submit_handler gen store rf wf t uf).genCalls = 0 ∧
    (submit_handler gen store rf wf t uf).storeWrites = 0 := by
  rcases h with h | h
  · subst h
    simp [submit_handler]
  · subst h
    by_cases ht : t = ""
    · subst ht
      simp [submit_handler]
    · simp [submit_handler, ht]

/-- Witness for C4 at an empty prompt with no file. -/
theorem C4_validation_gating_witness :
    (("" : String) = "" ∨ (none : Option UploadedFile) = none) ∧
    (((submit_handler genConst emptyStore false false "" none).displayed =
        Display.warnPrompt ∨
      (submit_handler genConst emptyStore false false "" none).displayed =
        Display.warnImage) ∧
    (submit_handler genConst emptyStore false false "" none).storeReads = 0 ∧
    (submit_handler genConst emptyStore false false "" none).genCalls = 0 ∧
    (submit_handler genConst emptyStore false false "" none).storeWrites = 0) :=
  ⟨Or.inl rfl,
    C4_validation_gating genConst emptyStore false false "" none (Or.inl rfl)⟩

/-- Counterexample to claim C1 as stated: the store maps the identifier of
`fileA` to the truthy record `[("response", "")]`, a cache hit; no
generation call is made, but the displayed outcome is the
no-response-generated error, not the stored response field `""`, because
the final `if response:` test treats the empty string as falsy. -/
theorem C1_counterexample :
    storeC1 (sha256hex fileA.data) = some [("response", "")] ∧
    (submit_handler genConst storeC1 false false "p" (some fileA)).genCalls
      = 0 ∧
    (submit_handler genConst storeC1 false false "p" (some fileA)).displayed
      = Display.errorNoResponse ∧
    ¬ (submit_handler genConst storeC1 false false "p" (some fileA)).displayed
      = Display.written "" := by
  refine ⟨by simp [storeC1], ?_, ?_, ?_⟩ <;>
    simp [submit_handler, storeC1, input_image_setup, encode_image_binary,
      check_existing_response, truthyRec, dictGet, dictLookup, sha256hex_ne]

/-- Claim C1 as amended: on a cache hit the generation call is not
invoked and nothing is written; and whenever the stored entry's response
field is present and non-empty, the displayed response equals it. -/
theorem C1_amended_cache_hit
    (gen : String → ImagePart → String → Option String) (store : Store)
    (wf : Bool) (t : String) (f : UploadedFile) (e : Record) (r : String)
    (ht : ¬ t = "") (hst : store (sha256hex f.data) = some e)
    (hfield : dictLookup e "response" = some r) (hr : ¬ r = "") :
    (submit_handler gen store false wf t (some f)).genCalls = 0 ∧
    (submit_handler gen store false wf t (some f)).storeWrites = 0 ∧
    (submit_handler gen store false wf t (some f)).displayed =
      Display.written r := by
  cases e with
  | nil => simp [dictLookup] at hfield
  | cons p rest =>
    simp [submit_handler, input_image_setup, encode_image_binary,
      check_existing_response, truthyRec, dictGet, ht, hst, hfield, hr,
      sha256hex_ne]

/-- Witness for the amended C1 at a concrete populated store. -/
theorem C1_amended_cache_hit_witness :
    (¬ ("p" : String) = "") ∧
    storeHit (sha256hex fileA.data) = some [("response", "cached")] ∧
    dictLookup [("response", "cached")] "response" = some "cached" ∧
    (¬ ("cached" : String) = "") ∧
    ((submit_handler genConst storeHit false false "p" (some fileA)).genCalls
        = 0 ∧
      (submit_handler genConst storeHit false false "p"
        (some fileA)).storeWrites = 0 ∧
      (submit_handler genConst storeHit false false "p"
        (some fileA)).displayed = Display.written "cached") :=
  ⟨by decide, by simp [storeHit], rfl, by decide,
    C1_amended_cache_hit genConst storeHit false "p" fileA
      [("response", "cached")] "cached" (by decide) (by simp [storeHit]) rfl
      (by decide)⟩

/-- Counterexample to claim C2 as stated: on an empty store the
generation call succeeds (one call, text "GEN"), but the store write
raises a transport error, so afterwards the store still has no record at
the derived identifier. -/
theorem C2_counterexample :
    emptyStore (sha256hex fileA.data) = none ∧
    genConst input_prompt ⟨fileA.type, fileA.data⟩ "p" = some "GEN" ∧
    (submit_handler genConst emptyStore false true "p" (some fileA)).genCalls
      = 1 ∧
    (submit_handler genConst emptyStore false true "p" (some fileA)).store
      (sha256hex fileA.data) = none := by
  refine ⟨rfl, rfl, ?_, ?_⟩ <;>
    simp [submit_handler, emptyStore, input_image_setup, encode_image_binary,
      check_existing_response, truthyRec, get_gemini_response, genConst,
      store_response_in_firebase, sha256hex_ne]

/-- Claim C2 as amended: on a cache miss whose generation call succeeds
with (necessarily truthy) text, exactly one generation call is made, and
provided the store write does not fail, the store afterwards holds at the
identifier the record with that response and with encoding equal to the
identifier. -/
theorem C2_amended_miss_write_through
    (gen : String → ImagePart → String → Option String) (store : Store)
    (rf : Bool) (t : String) (f : UploadedFile) (r : String)
    (ht : ¬ t = "")
    (hmiss : truthyRec (check_existing_response store rf (sha256hex f.data))
      = false)
    (hg : gen input_prompt ⟨f.type, f.data⟩ t = some r) (hr : ¬ r = "") :
    (submit_handler gen store rf false t (some f)).genCalls = 1 ∧
    (submit_handler gen store rf false t (some f)).store (sha256hex f.data) =
      some [("response", r), ("encoding", sha256hex f.data)] := by
  simp [submit_handler, input_image_setup, encode_image_binary,
    get_gemini_response, store_response_in_firebase, ht, hmiss, hg, hr,
    sha256hex_ne]

/-- Witness for the amended C2 on the empty store. -/
theorem C2_amended_miss_write_through_witness :
    (¬ ("p" : String) = "") ∧
    truthyRec (check_existing_response emptyStore false
      (sha256hex fileA.data)) = false ∧
    genConst input_prompt ⟨fileA.type, fileA.data⟩ "p" = some "GEN" ∧
    (¬ ("GEN" : String) = "") ∧
    ((submit_handler genConst emptyStore false false "p"
        (some fileA)).genCalls = 1 ∧
      (submit_handler genConst emptyStore false false "p" (some fileA)).store
        (sha256hex fileA.data) =
        some [("response", "GEN"), ("encoding", sha256hex fileA.data)]) :=
  ⟨by decide, rfl, rfl, by decide,
    C2_amended_miss_write_through genConst emptyStore false "p" fileA "GEN"
      (by decide) rfl rfl (by decide)⟩

/-- Claim C5: when the store read raises a transport error the submission
behaves exactly as a cache miss: generation is still invoked (the hit
branch is not taken) and the successfully generated response is still
displayed, the same display as a genuine miss on an empty store. -/
theorem C5_degraded_store_read
    (gen : String → ImagePart → String → Option String) (store : Store)
    (wf : Bool) (t : String) (f : UploadedFile) (r : String)
    (ht : ¬ t = "")
    (hg : gen input_prompt ⟨f.type, f.data⟩ t = some r) (hr : ¬ r = "") :
    (submit_handler gen store true wf t (some f)).genCalls = 1 ∧
    (submit_handler gen store true wf t (some f)).hitPath = false ∧
    (submit_handler gen store true wf t (some f)).displayed =
      Display.written r ∧
    (submit_handler gen store true wf t (some f)).displayed =
      (submit_handler gen emptyStore false wf t (some f)).displayed := by
  simp [submit_handler, input_image_setup, encode_image_binary,
    check_existing_response, truthyRec, get_gemini_response, emptyStore, ht,
    hg, hr, sha256hex_ne]

/-- Witness for C5 at a store that does hold a record for the file. -/
theorem C5_degraded_store_read_witness :
    (¬ ("p" : String) = "") ∧
    genConst input_prompt ⟨fileA.type, fileA.data⟩ "p" = some "GEN" ∧
    (¬ ("GEN" : String) = "") ∧
    ((submit_handler genConst storeHit true false "p" (some fileA)).genCalls
        = 1 ∧
      (submit_handler genConst storeHit true false "p" (some fileA)).hitPath
        = false ∧
      (submit_handler genConst storeHit true false "p"
        (some fileA)).displayed = Display.written "GEN" ∧
      (submit_handler genConst storeHit true false "p"
        (some fileA)).displayed =
        (submit_handler genConst emptyStore false false "p"
          (some fileA)).displayed) :=
  ⟨by decide, rfl, by decide,
    C5_degraded_store_read genConst storeHit false "p" fileA "GEN" (by decide)
      rfl (by decide)⟩

/-- Claim C6: on a miss whose generation succeeds with truthy text, a
failing store write leaves the displayed response unchanged: it is the
freshly generated text, identical to the display when the write
succeeds. -/
theorem C6_write_failure_frame
    (gen : String → ImagePart → String → Option String) (store : Store)
    (rf : Bool) (t : String) (f : UploadedFile) (r : String)
    (ht : ¬ t = "")
    (hmiss : truthyRec (check_existing_response store rf (sha256hex f.data))
      = false)
    (hg : gen input_prompt ⟨f.type, f.data⟩ t = some r) (hr : ¬ r = "") :
    (submit_handler gen store rf true t (some f)).displayed =
      Display.written r ∧
    (submit_handler gen store rf true t (some f)).displayed =
      (submit_handler gen store rf false t (some f)).displayed := by
  simp [submit_handler, input_image_setup, encode_image_binary,
    get_gemini_response, ht, hmiss, hg, hr, sha256hex_ne]

/-- Witness for C6 on the empty store with a failing write. -/
theorem C6_write_failure_frame_witness :
    (¬ ("p" : String) = "") ∧
    truthyRec (check_existing_response emptyStore false
      (sha256hex fileA.data)) = false ∧
    genConst input_prompt ⟨fileA.type, fileA.data⟩ "p" = some "GEN" ∧
    (¬ ("GEN" : String) = "") ∧
    ((submit_handler genConst emptyStore false true "p"
        (some fileA)).displayed = Display.written "GEN" ∧
      (submit_handler genConst emptyStore false true "p"
        (some fileA)).displayed =
        (submit_handler genConst emptyStore false false "p"
          (some fileA)).displayed) :=
  ⟨by decide, rfl, rfl, by decide,
    C6_write_failure_frame genConst emptyStore false "p" fileA "GEN"
      (by decide) rfl rfl (by decide)⟩

/-- Claim C7: on a miss whose generation call fails, the submission ends in
the no-response-generated report, performs no store write (the store is
untouched), and makes exactly one generation call: no retry, no
fallback. -/
theorem C7_generation_failure_terminal
    (gen : String → ImagePart → String → Option String) (store : Store)
    (rf wf : Bool) (t : String) (f : UploadedFile)
    (ht : ¬ t = "")
    (hmiss : truthyRec (check_existing_response store rf (sha256hex f.data))
      = false)
    (hg : gen input_prompt ⟨f.type, f.data⟩ t = none) :
    (submit_handler gen store rf wf t (some f)).displayed =
      Display.errorNoResponse ∧
    (submit_handler gen store rf wf t (some f)).storeWrites = 0 ∧
    (submit_handler gen store rf wf t (some f)).store = store ∧
    (submit_handler gen store rf wf t (some f)).genCalls = 1 := by
  simp [submit_handler, input_image_setup, encode_image_binary,
    get_gemini_response, ht, hmiss, hg, sha256hex_ne]

/-- Witness for C7 with an always-failing model oracle. -/
theorem C7_generation_failure_terminal_witness :
    (¬ ("p" : String) = "") ∧
    truthyRec (check_existing_response emptyStore false
      (sha256hex fileA.data)) = false ∧
    genFail input_prompt ⟨fileA.type, fileA.data⟩ "p" = none ∧
    ((submit_handler genFail emptyStore false false "p"
        (some fileA)).displayed = Display.errorNoResponse ∧
      (submit_handler genFail emptyStore false false "p"
        (some fileA)).storeWrites = 0 ∧
      (submit_handler genFail emptyStore false false "p" (some fileA)).store
        = emptyStore ∧
      (submit_handler genFail emptyStore false false "p"
        (some fileA)).genCalls = 1) :=
  ⟨by decide, rfl, rfl,
    C7_generation_failure_terminal genFail emptyStore false false "p" fileA
      (by decide) rfl rfl⟩

/-- Helper: a validated miss with truthy generated text and a succeeding
write reduces to the written-response result with the write-through
store. -/
theorem submit_miss_success
    (gen : String → ImagePart → String → Option String) (store : Store)
    (rf : Bool) (t : String) (f : UploadedFile) (r : String)
    (ht : ¬ t = "")
    (hmiss : truthyRec (check_existing_response store rf (sha256hex f.data))
      = false)
    (hg : gen input_prompt ⟨f.type, f.data⟩ t = some r) (hr : ¬ r = "") :
    submit_handler gen store rf false t (some f) =
      ⟨Display.written r, 1, 1, 1,
        store_response_in_firebase store false (sha256hex f.data) r
          (sha256hex f.data), false⟩ := by
  simp [submit_handler, input_image_setup, encode_image_binary,
    get_gemini_response, ht, hmiss, hg, hr, sha256hex_ne]

/-- Claim C8: after a first submission populated the cache (a miss whose
truthy generated text was written successfully), resubmitting the same
image and prompt displays the same response as the first, via the
cache-hit branch, with no second generation call. -/
theorem C8_idempotent_resubmission
    (gen : String → ImagePart → String → Option String) (store : Store)
    (rf wf2 : Bool) (t : String) (f : UploadedFile) (r : String)
    (ht : ¬ t = "")
    (hmiss : truthyRec (check_existing_response store rf (sha256hex f.data))
      = false)
    (hg : gen input_prompt ⟨f.type, f.data⟩ t = some r) (hr : ¬ r = "") :
    (submit_handler gen store rf false t (some f)).displayed =
      Display.written r ∧
    (submit_handler gen
        (submit_handler gen store rf false t (some f)).store false wf2 t
        (some f)).displayed =
      (submit_handler gen store rf false t (some f)).displayed ∧
    (submit_handler gen
        (submit_handler gen store rf false t (some f)).store false wf2 t
        (some f)).genCalls = 0 ∧
    (submit_handler gen
        (submit_handler gen store rf false t (some f)).store false wf2 t
        (some f)).hitPath = true := by
  rw [submit_miss_success gen store rf t f r ht hmiss hg hr]
  refine ⟨rfl, ?_, ?_, ?_⟩ <;>
    simp [submit_handler, input_image_setup, encode_image_binary,
      check_existing_response, store_response_in_firebase, truthyRec,
      dictGet, dictLookup, ht, hr, sha256hex_ne]

/-- Witness for C8: first run on the empty store, second run on the store
the first run produced. -/
theorem C8_idempotent_resubmission_witness :
    (¬ ("p" : String) = "") ∧
    truthyRec (check_existing_response emptyStore false
      (sha256hex fileA.data)) = false ∧
    genConst input_prompt ⟨fileA.type, fileA.data⟩ "p" = some "GEN" ∧
    (¬ ("GEN" : String) = "") ∧
    ((submit_handler genConst emptyStore false false "p"
        (some fileA)).displayed = Display.written "GEN" ∧
      (submit_handler genConst
          (submit_handler genConst emptyStore false false "p"
            (some fileA)).store false false "p" (some fileA)).displayed =
        (submit_handler genConst emptyStore false false "p"
          (some fileA)).displayed ∧
      (submit_handler genConst
          (submit_handler genConst emptyStore false false "p"
            (some fileA)).store false false "p" (some fileA)).genCalls = 0 ∧
      (submit_handler genConst
          (submit_handler genConst emptyStore false false "p"
            (some fileA)).store false false "p" (some fileA)).hitPath =
        true) :=
  ⟨by decide, rfl, rfl, by decide,
    C8_idempotent_resubmission genConst emptyStore false false "p" fileA
      "GEN" (by decide) rfl rfl (by decide)⟩

/-- Claim C9: a stored falsy value (the empty record) at the identifier is
treated as a cache miss: the hit branch is not taken, generation is
invoked, and on truthy success with a succeeding write the key is
overwritten with the fresh record while the fresh text is displayed. -/
theorem C9_falsy_record_as_miss
    (gen : String → ImagePart → String → Option String) (store : Store)
    (t : String) (f : UploadedFile) (r : String)
    (ht : ¬ t = "") (hst : store (sha256hex f.data) = some [])
    (hg : gen input_prompt ⟨f.type, f.data⟩ t = some r) (hr : ¬ r = "") :
    (submit_handler gen store false false t (some f)).hitPath = false ∧
    (submit_handler gen store false false t (some f)).genCalls = 1 ∧
    (submit_handler gen store false false t (some f)).store
      (sha256hex f.data) =
      some [("response", r), ("encoding", sha256hex f.data)] ∧
    (submit_handler gen store false false t (some f)).displayed =
      Display.written r := by
  simp [submit_handler, input_image_setup, encode_image_binary,
    check_existing_response, truthyRec, get_gemini_response,
    store_response_in_firebase, ht, hst, hg, hr, sha256hex_ne]

/-- Witness for C9 at a store holding an empty record for the file. -/
theorem C9_falsy_record_as_miss_witness :
    (¬ ("p" : String) = "") ∧
    storeEmptyRec (sha256hex fileA.data) = some [] ∧
    genConst input_prompt ⟨fileA.type, fileA.data⟩ "p" = some "GEN" ∧
    (¬ ("GEN" : String) = "") ∧
    ((submit_handler genConst storeEmptyRec false false "p"
        (some fileA)).hitPath = false ∧
      (submit_handler genConst storeEmptyRec false false "p"
        (some fileA)).genCalls = 1 ∧
      (submit_handler genConst storeEmptyRec false false "p"
        (some fileA)).store (sha256hex fileA.data) =
        some [("response", "GEN"), ("encoding", sha256hex fileA.data)] ∧
      (submit_handler genConst storeEmptyRec false false "p"
        (some fileA)).displayed = Display.written "GEN") :=
  ⟨by decide, by simp [storeEmptyRec], rfl, by decide,
    C9_falsy_record_as_miss genConst storeEmptyRec "p" fileA "GEN"
      (by decide) (by simp [storeEmptyRec]) rfl (by decide)⟩

/-- Claim C10: a cache hit on a truthy record without a response field
neither fails nor regenerates: no generation call is made and the literal
default text "No response found" is displayed. -/
theorem C10_missing_field_default
    (gen : String → ImagePart → String → Option String) (store : Store)
    (wf : Bool) (t : String) (f : UploadedFile) (e : Record)
    (ht : ¬ t = "") (hst : store (sha256hex f.data) = some e)
    (hne : ¬ e = []) (hnone : dictLookup e "response" = none) :
    (submit_handler gen store false wf t (some f)).genCalls = 0 ∧
    (submit_handler gen store false wf t (some f)).displayed =
      Display.written "No response found" := by
  cases e with
  | nil => exact absurd rfl hne
  | cons p rest =>
    simp [submit_handler, input_image_setup, encode_image_binary,
      check_existing_response, truthyRec, dictGet, ht, hst, hnone,
      sha256hex_ne]

/-- Witness for C10 at a record holding only an encoding field. -/
theorem C10_missing_field_default_witness :
    (¬ ("p" : String) = "") ∧
    storeNoField (sha256hex fileA.data) = some [("encoding", "x")] ∧
    (¬ ([("encoding", "x")] : Record) = []) ∧
    dictLookup [("encoding", "x")] "response" = none ∧
    ((submit_handler genConst storeNoField false false "p"
        (some fileA)).genCalls = 0 ∧
      (submit_handler genConst storeNoField false false "p"
        (some fileA)).displayed = Display.written "No response found") :=
  ⟨by decide, by simp [storeNoField], fun h => List.cons_ne_nil _ _ h, rfl,
    C10_missing_field_default genConst storeNoField false "p" fileA
      [("encoding", "x")] (by decide) (by simp [storeNoField])
      (fun h => List.cons_ne_nil _ _ h) rfl⟩
